import Mathlib

/-!
Shallow embedding of the infrastructure_geoanalysis repository
(`modules/placement_module.py`, `modules/isochrones_module.py`,
`modules/accessibility_module.py`).

Coordinates and edge weights are modelled as rationals; the geometry
pipeline (shapely `unary_union` / `buffer` / `simplify` / CRS
reprojection) is abstracted behind an opaque-to-the-model function
parameter: every claim under verification is about the combinatorial
behaviour (clustering, budget derivation, cutoff reachability, error
propagation, candidate-list construction), never about the polygon
coordinates themselves.
-/

namespace GeoAnalysis

/-- A planar point (model of a shapely `Point` / a coordinate pair). -/
abbrev Pt := ℚ × ℚ

/-- Squared Euclidean distance between two points.  `KDTree.query_ball_point`
membership (`dist ≤ r`) is modelled as `sqDist ≤ r * r`. -/
def sqDist (p q : Pt) : ℚ :=
  (p.1 - q.1) * (p.1 - q.1) + (p.2 - q.2) * (p.2 - q.2)

/-! ## SpatialClusterer: `placement_module.find_residential_clusters`

The python loop builds a KDTree over all point coordinates, iterates the
points in index order, skips an index already in `visited`, and otherwise
queries `tree.query_ball_point(point, r=radius_meters)` — over **all**
points, visited or not.  If the ball has at least `min_cluster_size`
members it appends the ball's coordinate mean and adds the ball's indices
to `visited`. -/

/-- Indices of all points of `coords` within radius `r` of `center`
(model of `tree.query_ball_point(center, r)`). -/
def ballIndices (coords : List Pt) (center : Pt) (r : ℚ) : List Nat :=
  (coords.enum.filter (fun p => decide (sqDist p.2 center ≤ r * r))).map Prod.fst

/-- The main loop of `find_residential_clusters`: iterate over the pending
indices carrying the `visited` set; emit, for each accepted seed, the pair
(seed index, indices of its radius ball). -/
def clusterGo (coords : List Pt) (r : ℚ) (minSize : Nat) :
    List Nat → List Nat → List (Nat × List Nat)
  | [], _ => []
  | idx :: rest, visited =>
    if idx ∈ visited then
      clusterGo coords r minSize rest visited
    else if minSize ≤ (ballIndices coords (coords.getD idx ((0 : ℚ), (0 : ℚ))) r).length then
      (idx, ballIndices coords (coords.getD idx ((0 : ℚ), (0 : ℚ))) r) ::
        clusterGo coords r minSize rest
          (visited ++ ballIndices coords (coords.getD idx ((0 : ℚ), (0 : ℚ))) r)
    else
      clusterGo coords r minSize rest visited

/-- The emitted groups of `find_residential_clusters`, each as
(seed index, member indices). -/
def clusterGroups (coords : List Pt) (r : ℚ) (minSize : Nat) : List (Nat × List Nat) :=
  clusterGo coords r minSize (List.range coords.length) []

/-- Coordinate mean of the points of `coords` selected by `inds`
(model of `cluster_points.mean(axis=0)`). -/
def meanPoint (coords : List Pt) (inds : List Nat) : Pt :=
  ((inds.map (fun i => (coords.getD i ((0 : ℚ), (0 : ℚ))).1)).sum / inds.length,
   (inds.map (fun i => (coords.getD i ((0 : ℚ), (0 : ℚ))).2)).sum / inds.length)

/-- `find_residential_clusters`: the list of emitted cluster centroids, in
emission order.  The python wrapper additionally reprojects the centroids
between CRSs; the model works in the single planar frame the loop runs in. -/
def find_residential_clusters (coords : List Pt) (r : ℚ) (minSize : Nat) : List Pt :=
  (clusterGroups coords r minSize).map (fun g => meanPoint coords g.2)

/-- The exclusivity property claimed of the clusterer: distinct emitted
groups never share a member index. -/
def MembershipExclusive (coords : List Pt) (r : ℚ) (minSize : Nat) : Prop :=
  (clusterGroups coords r minSize).Pairwise (fun a b => ∀ i, i ∈ a.2 → i ∉ b.2)

lemma clusterGo_seed_not_visited (coords : List Pt) (r : ℚ) (minSize : Nat) :
    ∀ (pending visited : List Nat), ∀ g ∈ clusterGo coords r minSize pending visited,
      g.1 ∉ visited := by
  intro pending
  induction pending with
  | nil => intro visited g hg; simp [clusterGo] at hg
  | cons idx rest ih =>
    intro visited g hg
    rw [clusterGo] at hg
    by_cases hv : idx ∈ visited
    · rw [if_pos hv] at hg
      exact ih visited g hg
    · rw [if_neg hv] at hg
      by_cases hs : minSize ≤ (ballIndices coords (coords.getD idx ((0 : ℚ), (0 : ℚ))) r).length
      · rw [if_pos hs] at hg
        rcases List.mem_cons.mp hg with hg | hg
        · rw [hg]; exact hv
        · intro hcon
          exact ih _ g hg (List.mem_append_left _ hcon)
      · rw [if_neg hs] at hg
        exact ih visited g hg

lemma clusterGo_pairwise_seed (coords : List Pt) (r : ℚ) (minSize : Nat) :
    ∀ (pending visited : List Nat),
      (clusterGo coords r minSize pending visited).Pairwise (fun a b => b.1 ∉ a.2) := by
  intro pending
  induction pending with
  | nil => intro visited; simp [clusterGo]
  | cons idx rest ih =>
    intro visited
    rw [clusterGo]
    by_cases hv : idx ∈ visited
    · rw [if_pos hv]; exact ih visited
    · rw [if_neg hv]
      by_cases hs : minSize ≤ (ballIndices coords (coords.getD idx ((0 : ℚ), (0 : ℚ))) r).length
      · rw [if_pos hs]
        refine List.Pairwise.cons ?_ (ih _)
        intro b hb hcon
        exact clusterGo_seed_not_visited coords r minSize rest _ b hb
          (List.mem_append_right _ hcon)
      · rw [if_neg hs]; exact ih visited

lemma clusterGo_min_size (coords : List Pt) (r : ℚ) (minSize : Nat) :
    ∀ (pending visited : List Nat), ∀ g ∈ clusterGo coords r minSize pending visited,
      minSize ≤ g.2.length := by
  intro pending
  induction pending with
  | nil => intro visited g hg; simp [clusterGo] at hg
  | cons idx rest ih =>
    intro visited g hg
    rw [clusterGo] at hg
    by_cases hv : idx ∈ visited
    · rw [if_pos hv] at hg; exact ih visited g hg
    · rw [if_neg hv] at hg
      by_cases hs : minSize ≤ (ballIndices coords (coords.getD idx ((0 : ℚ), (0 : ℚ))) r).length
      · rw [if_pos hs] at hg
        rcases List.mem_cons.mp hg with hg | hg
        · rw [hg]; exact hs
        · exact ih _ g hg
      · rw [if_neg hs] at hg; exact ih visited g hg

/-- C1 counterexample: with three collinear points 150 m apart, radius 200 and
min size 2, the point with index 1 is a member of both emitted groups, so
membership exclusivity fails on the code. -/
theorem C1_counterexample :
    ¬ MembershipExclusive [((0 : ℚ), (0 : ℚ)), ((150 : ℚ), (0 : ℚ)), ((300 : ℚ), (0 : ℚ))] 200 2 := by
  intro h
  have hg : clusterGroups [((0 : ℚ), (0 : ℚ)), ((150 : ℚ), (0 : ℚ)), ((300 : ℚ), (0 : ℚ))] 200 2 =
      [(0, [0, 1]), (2, [1, 2])] := by
    norm_num [clusterGroups, clusterGo, ballIndices, sqDist, List.enum, List.enumFrom,
      List.filter, List.range, List.range.loop]
  rw [MembershipExclusive, hg] at h
  have h2 := List.rel_of_pairwise_cons h (List.mem_singleton.mpr rfl)
  exact h2 1 (by decide) (by decide)

/-- C1 (amended): the claim-as-you-go rule only guarantees seed exclusivity —
a later emitted group's seed point was never a member of an earlier emitted
group (and every emitted group has at least `min_size` members) — but a
claimed point may be counted again into a later group, because the radius
query ranges over all points rather than only unclaimed ones. -/
theorem C1_cluster_seed_exclusive (coords : List Pt) (r : ℚ) (minSize : Nat) :
    (clusterGroups coords r minSize).Pairwise (fun a b => b.1 ∉ a.2) ∧
    ∀ g ∈ clusterGroups coords r minSize, minSize ≤ g.2.length :=
  ⟨clusterGo_pairwise_seed coords r minSize _ _,
   fun g hg => clusterGo_min_size coords r minSize _ _ g hg⟩

/-! ## IsochroneBuilder: `isochrones_module.py`

`_load_graph` supplies per-mode constants (walking speed 1.3 m/s for walk,
corridor buffer 50 m walk / 70 m drive) plus the routing graph, the edge
geometry table and a nearest-node KD-tree.  `build_isochrone` derives a
time budget from the limit, snaps the origin to the nearest graph node,
runs `nx.single_source_dijkstra_path_length` with `cutoff=time_limit`,
keeps the edge-geometry rows whose both endpoints are reachable, and
buffers their union into a polygon.  The geometry step is abstracted as the
`mkPoly` field of `GraphData`. -/

inductive Mode
  | walk
  | drive
deriving DecidableEq, Repr

inductive LimitType
  | meters
  | minutes
deriving DecidableEq, Repr

/-- Error taxonomy of `build_isochrone`: the `ValueError`s for an
unsupported mode/limit combination and the two `RuntimeError`s. -/
inductive IsoError
  | invalidParameter
  | noReachableNodes
  | noReachableEdges
deriving DecidableEq, Repr

/-- Mode constants of `_load_graph`: `speed_mps` is 1.3 for walk and absent
for drive. -/
def speed_mps : Mode → Option ℚ
  | .walk => some (13 / 10)
  | .drive => none

/-- Mode constants of `_load_graph`: corridor buffer radius in meters. -/
def buffer_size : Mode → ℚ
  | .walk => 50
  | .drive => 70

/-- Budget derivation of `build_isochrone`: meters are rejected for drive and
otherwise converted via `(limit / speed_mps) * 1.2`; minutes become
`limit * 60 * 2`. -/
def derive_time_limit (mode : Mode) (limit : ℚ) (lt : LimitType) : Except IsoError ℚ :=
  match lt with
  | .meters =>
    if mode = .drive then .error .invalidParameter
    else .ok ((limit / ((speed_mps mode).getD 0)) * (12 / 10))
  | .minutes => .ok (limit * 60 * 2)

/-- A weighted directed edge of the routing graph (graphml `u`, `v`,
`weight` in traversal seconds). -/
structure Edge where
  u : String
  v : String
  weight : ℚ
deriving DecidableEq, Repr

/-- The routing graph: node ids with coordinates, and weighted edges. -/
structure RoutingGraph where
  nodes : List (String × Pt)
  edges : List Edge
deriving DecidableEq, Repr

/-- Index of the first nearest coordinate (model of `kdtree.query(coord)`). -/
def nearestIdx (coords : List Pt) (c : Pt) : Nat :=
  (coords.enum.foldl
    (fun best p => if sqDist p.2 c < best.2 then (p.1, sqDist p.2 c) else best)
    (0, sqDist (coords.getD 0 ((0 : ℚ), (0 : ℚ))) c)).1

/-- The snapped source node: `node_ids[kdtree.query(coord)[1]]`. -/
def snap_source (g : RoutingGraph) (coord : Pt) : String :=
  (g.nodes.getD (nearestIdx (g.nodes.map Prod.snd) coord) ("", ((0 : ℚ), (0 : ℚ)))).1

/-- One expansion round of the cutoff shortest-path search: keep every
already discovered (node, cost) pair and add each one-edge extension whose
accumulated cost stays within the budget `t` — the pruning
`nx.single_source_dijkstra_path_length` applies with `cutoff=t`. -/
def stepPairs (edges : List Edge) (t : ℚ) (ps : List (String × ℚ)) : List (String × ℚ) :=
  ps ++ ps.flatMap (fun p =>
    (edges.filter (fun e => decide (e.u = p.1) && decide (p.2 + e.weight ≤ t))).map
      (fun e => (e.v, p.2 + e.weight)))

/-- All (node, accumulated cost) pairs discoverable from `src` in at most `n`
expansion rounds within budget `t`.  The source enters at cost 0
unconditionally, exactly as Dijkstra records its source before any cutoff
check. -/
def reachPairs (edges : List Edge) (t : ℚ) (src : String) : Nat → List (String × ℚ)
  | 0 => [(src, 0)]
  | n + 1 => stepPairs edges t (reachPairs edges t src n)

/-- The set (as a deduplicated list) of nodes reachable from `src` within
budget `t`, using one expansion round per graph node — with the
non-negative edge weights of the data model this is the key set of
`nx.single_source_dijkstra_path_length(G, src, cutoff=t)`. -/
def reachable_nodes (g : RoutingGraph) (src : String) (t : ℚ) : List String :=
  ((reachPairs g.edges t src g.nodes.length).map Prod.fst).dedup

/-- The per-mode data `_load_graph` hands to `build_isochrone`: the routing
graph, the edge-geometry table keyed by (u, v), and the geometry pipeline
(`unary_union` + `buffer` + `simplify` + reprojection) abstracted as
`mkPoly`. -/
structure GraphData (Poly : Type) where
  graph : RoutingGraph
  edgesGeom : List (String × String)
  mkPoly : List (String × String) → Poly

/-- The GeoJSON feature `build_isochrone` returns: geometry plus the
properties dict.  (The source rounds `time_limit_sec` to 2 decimals for
display; the model keeps the exact value the cutoff search used.) -/
structure IsoFeature (Poly : Type) where
  geometry : Poly
  mode : Mode
  limit : ℚ
  limit_type : LimitType
  time_limit_sec : ℚ
  source_node : String
  reachable_nodes : Nat
deriving DecidableEq

/-- Reachable node set of a build request, after snapping. -/
def iso_reachable {Poly : Type} (data : GraphData Poly) (coord : Pt) (t : ℚ) : List String :=
  reachable_nodes data.graph (snap_source data.graph coord) t

/-- Edge-geometry rows whose **both** endpoints are reachable
(`edges_gdf_utm[u.isin(reachable) & v.isin(reachable)]`). -/
def iso_edges {Poly : Type} (data : GraphData Poly) (coord : Pt) (t : ℚ) :
    List (String × String) :=
  data.edgesGeom.filter (fun e =>
    decide (e.1 ∈ iso_reachable data coord t) && decide (e.2 ∈ iso_reachable data coord t))

/-- `build_isochrone(coord, mode, limit, limit_type)`. -/
def build_isochrone {Poly : Type} (data : GraphData Poly) (coord : Pt)
    (mode : Mode) (limit : ℚ) (lt : LimitType) : Except IsoError (IsoFeature Poly) :=
  match derive_time_limit mode limit lt with
  | .error e => .error e
  | .ok t =>
    if iso_reachable data coord t = [] then .error .noReachableNodes
    else if iso_edges data coord t = [] then .error .noReachableEdges
    else .ok
      { geometry := data.mkPoly (iso_edges data coord t)
        mode := mode
        limit := limit
        limit_type := lt
        time_limit_sec := t
        source_node := snap_source data.graph coord
        reachable_nodes := (iso_reachable data coord t).length }

lemma source_pair_mem_reachPairs (edges : List Edge) (t : ℚ) (src : String) :
    ∀ n, (src, (0 : ℚ)) ∈ reachPairs edges t src n := by
  intro n
  induction n with
  | zero => simp [reachPairs]
  | succ n ih => exact List.mem_append_left _ ih

lemma source_mem_reachable_nodes (g : RoutingGraph) (src : String) (t : ℚ) :
    src ∈ reachable_nodes g src t := by
  unfold reachable_nodes
  rw [List.mem_dedup]
  exact List.mem_map.mpr ⟨(src, 0), source_pair_mem_reachPairs _ _ _ _, rfl⟩

lemma reachable_nodes_ne_nil (g : RoutingGraph) (src : String) (t : ℚ) :
    reachable_nodes g src t ≠ [] := by
  intro h
  have := source_mem_reachable_nodes g src t
  rw [h] at this
  exact List.not_mem_nil _ this

lemma iso_reachable_ne_nil {Poly : Type} (data : GraphData Poly) (coord : Pt) (t : ℚ) :
    iso_reachable data coord t ≠ [] :=
  reachable_nodes_ne_nil _ _ _

lemma stepPairs_subset {edges : List Edge} {t1 t2 : ℚ} (ht : t1 ≤ t2)
    {ps1 ps2 : List (String × ℚ)} (hps : ∀ p ∈ ps1, p ∈ ps2) :
    ∀ q ∈ stepPairs edges t1 ps1, q ∈ stepPairs edges t2 ps2 := by
  intro q hq
  rcases List.mem_append.mp hq with h | h
  · exact List.mem_append_left _ (hps _ h)
  · rcases List.mem_flatMap.mp h with ⟨p, hp, hq2⟩
    rcases List.mem_map.mp hq2 with ⟨e, he, hge⟩
    rcases List.mem_filter.mp he with ⟨hee, hcond⟩
    rw [Bool.and_eq_true, decide_eq_true_iff, decide_eq_true_iff] at hcond
    refine List.mem_append_right _ (List.mem_flatMap.mpr
      ⟨p, hps _ hp, List.mem_map.mpr ⟨e, List.mem_filter.mpr ⟨hee, ?_⟩, hge⟩⟩)
    rw [Bool.and_eq_true, decide_eq_true_iff, decide_eq_true_iff]
    exact ⟨hcond.1, hcond.2.trans ht⟩

lemma reachPairs_subset (edges : List Edge) {t1 t2 : ℚ} (ht : t1 ≤ t2) (src : String) :
    ∀ n, ∀ q ∈ reachPairs edges t1 src n, q ∈ reachPairs edges t2 src n := by
  intro n
  induction n with
  | zero => intro q hq; exact hq
  | succ n ih => intro q hq; exact stepPairs_subset ht ih q hq

lemma derive_error_eq (mode : Mode) (limit : ℚ) (lt : LimitType) (e : IsoError)
    (h : derive_time_limit mode limit lt = .error e) : e = .invalidParameter := by
  unfold derive_time_limit at h
  cases lt with
  | meters =>
    by_cases hm : mode = .drive
    · rw [if_pos hm] at h
      exact (Except.error.inj h).symm
    · rw [if_neg hm] at h
      cases h
  | minutes => cases h

lemma build_isochrone_ne_noReachableNodes {Poly : Type} (data : GraphData Poly) (coord : Pt)
    (mode : Mode) (limit : ℚ) (lt : LimitType) :
    build_isochrone data coord mode limit lt ≠ .error .noReachableNodes := by
  intro hcon
  unfold build_isochrone at hcon
  cases hd : derive_time_limit mode limit lt with
  | error e =>
    rw [hd] at hcon
    dsimp only at hcon
    have he := Except.error.inj hcon
    rw [derive_error_eq mode limit lt e hd] at he
    cases he
  | ok t =>
    rw [hd] at hcon
    dsimp only at hcon
    rw [if_neg (iso_reachable_ne_nil data coord t)] at hcon
    by_cases h2 : iso_edges data coord t = []
    · rw [if_pos h2] at hcon
      cases Except.error.inj hcon
    · rw [if_neg h2] at hcon
      cases hcon

lemma build_isochrone_ok_fields {Poly : Type} (data : GraphData Poly) (coord : Pt)
    (mode : Mode) (limit : ℚ) (lt : LimitType) (t : ℚ) (f : IsoFeature Poly)
    (hd : derive_time_limit mode limit lt = .ok t)
    (hb : build_isochrone data coord mode limit lt = .ok f) :
    f.time_limit_sec = t ∧ f.reachable_nodes = (iso_reachable data coord t).length := by
  unfold build_isochrone at hb
  rw [hd] at hb
  dsimp only at hb
  rw [if_neg (iso_reachable_ne_nil data coord t)] at hb
  by_cases h2 : iso_edges data coord t = []
  · rw [if_pos h2] at hb
    cases hb
  · rw [if_neg h2] at hb
    rw [← Except.ok.inj hb]
    exact ⟨rfl, rfl⟩

/-- C3: the derived time budget is `(limit / 1.3) * 1.2` for walk-mode
distance limits and `limit * 60 * 2` for minute limits of either mode; in
particular a successful drive build with limit 15 minutes carries a
1800-second budget. -/
theorem C3_time_budget :
    (∀ (Poly : Type) (data : GraphData Poly) (coord : Pt) (limit : ℚ) (f : IsoFeature Poly),
      build_isochrone data coord .walk limit .meters = .ok f →
      f.time_limit_sec = (limit / (13 / 10)) * (12 / 10)) ∧
    (∀ (Poly : Type) (data : GraphData Poly) (coord : Pt) (mode : Mode) (limit : ℚ)
        (f : IsoFeature Poly),
      build_isochrone data coord mode limit .minutes = .ok f →
      f.time_limit_sec = limit * 60 * 2) ∧
    (∀ (Poly : Type) (data : GraphData Poly) (coord : Pt) (f : IsoFeature Poly),
      build_isochrone data coord .drive 15 .minutes = .ok f →
      f.time_limit_sec = 1800) := by
  refine ⟨?_, ?_, ?_⟩
  · intro Poly data coord limit f hb
    exact (build_isochrone_ok_fields data coord .walk limit .meters _ f rfl hb).1
  · intro Poly data coord mode limit f hb
    exact (build_isochrone_ok_fields data coord mode limit .minutes _ f rfl hb).1
  · intro Poly data coord f hb
    have h := (build_isochrone_ok_fields data coord .drive 15 .minutes _ f rfl hb).1
    rw [h]
    norm_num

/-- C5 (claim as stated, refuted): there is no graph, origin, mode and
non-negative limit on which `build_isochrone` fails with the
no-reachable-nodes error. -/
def noReachableNodesCanOccur : Prop :=
  ∃ (data : GraphData Unit) (coord : Pt) (mode : Mode) (limit : ℚ) (lt : LimitType),
    0 ≤ limit ∧
    build_isochrone data coord mode limit lt = .error .noReachableNodes

/-- C5 counterexample: the claimed failure mode can never occur — for every
input whatsoever (in particular every valid origin and non-negative limit)
the snapped source node is reachable at cost 0, so the emptiness guard of
`build_isochrone` never fires. -/
theorem C5_counterexample : ¬ noReachableNodesCanOccur := by
  rintro ⟨data, coord, mode, limit, lt, _, hb⟩
  exact build_isochrone_ne_noReachableNodes data coord mode limit lt hb

/-- C5 (amended): `build_isochrone` raises the no-reachable-nodes error
exactly when the cutoff search returns no nodes, but that set always
contains the snapped source node itself, so the error branch is dead code
and the failure can never occur, for any origin or limit. -/
theorem C5_no_reachable_nodes_dead :
    (∀ (g : RoutingGraph) (src : String) (t : ℚ), src ∈ reachable_nodes g src t) ∧
    (∀ (Poly : Type) (data : GraphData Poly) (coord : Pt) (mode : Mode) (limit : ℚ)
        (lt : LimitType),
      build_isochrone data coord mode limit lt ≠ .error .noReachableNodes) :=
  ⟨source_mem_reachable_nodes, fun _ data coord mode limit lt =>
    build_isochrone_ne_noReachableNodes data coord mode limit lt⟩

/-- C8: enlarging the time budget can only enlarge the reachable-node set
computed against the same graph and snapped source. -/
theorem C8_reachable_monotone (g : RoutingGraph) (src : String) (t1 t2 : ℚ)
    (ht : t1 ≤ t2) : ∀ v ∈ reachable_nodes g src t1, v ∈ reachable_nodes g src t2 := by
  intro v hv
  unfold reachable_nodes at hv ⊢
  rw [List.mem_dedup] at hv ⊢
  rcases List.mem_map.mp hv with ⟨p, hp, hpv⟩
  exact List.mem_map.mpr ⟨p, reachPairs_subset g.edges ht src _ p hp, hpv⟩

/-- C9: the cutoff search always finds the snapped source at cost 0, the
reachable set is never empty, the no-reachable-nodes branch is unreachable,
and every successfully built isochrone reports at least one reachable
node. -/
theorem C9_source_always_reachable :
    ∀ (Poly : Type) (data : GraphData Poly) (coord : Pt) (t : ℚ), 0 ≤ t →
      ((snap_source data.graph coord, (0 : ℚ)) ∈
        reachPairs data.graph.edges t (snap_source data.graph coord)
          data.graph.nodes.length) ∧
      iso_reachable data coord t ≠ [] ∧
      (∀ (mode : Mode) (limit : ℚ) (lt : LimitType),
        build_isochrone data coord mode limit lt ≠ .error .noReachableNodes) ∧
      (∀ (mode : Mode) (limit : ℚ) (lt : LimitType) (f : IsoFeature Poly),
        build_isochrone data coord mode limit lt = .ok f → 1 ≤ f.reachable_nodes) := by
  intro Poly data coord t _
  refine ⟨source_pair_mem_reachPairs _ _ _ _, iso_reachable_ne_nil data coord t, ?_, ?_⟩
  · intro mode limit lt
    exact build_isochrone_ne_noReachableNodes data coord mode limit lt
  · intro mode limit lt f hb
    cases hd : derive_time_limit mode limit lt with
    | error e =>
      unfold build_isochrone at hb
      rw [hd] at hb
      cases hb
    | ok t2 =>
      have h := (build_isochrone_ok_fields data coord mode limit lt t2 f hd hb).2
      rw [h]
      exact List.length_pos.mpr (iso_reachable_ne_nil data coord t2)

/-! ## AccessibilityEvaluator: `accessibility_module.py`

`SOCIAL_GDF` is a static facility table (amenity tag + coordinate).
`_check_in_isochron` is shapely `polygon.contains(point)`, abstracted as
the `containsPt` field of the environment.  Each `_check_*` builds its
isochrone(s) and tests every matching facility; `analyze_accessibility`
runs the three checks in sequence with no error handling. -/

/-- A row of `social_infrastructure_points.geojson`. -/
structure Facility where
  amenity : String
  location : Pt
deriving DecidableEq, Repr

/-- The static data and external geometry the accessibility module reads:
per-mode graph data, the facility table, and polygon containment. -/
structure AccessEnv (Poly : Type) where
  walkData : GraphData Poly
  driveData : GraphData Poly
  social : List Facility
  containsPt : Poly → Pt → Bool

/-- `_check_in_isochron(iso_feature, point)`. -/
def _check_in_isochron {Poly : Type} (env : AccessEnv Poly) (iso : IsoFeature Poly)
    (p : Pt) : Bool :=
  env.containsPt iso.geometry p

/-- `_check_kindergarten`: walk isochrone at 500 m, facilities with
`amenity == "kindergarten"`. -/
def _check_kindergarten {Poly : Type} (env : AccessEnv Poly) (coord : Pt) :
    Except IsoError (Bool × IsoFeature Poly) :=
  (build_isochrone env.walkData coord .walk 500 .meters).map (fun iso =>
    ((env.social.filter (fun f => decide (f.amenity = "kindergarten"))).any
      (fun f => _check_in_isochron env iso f.location), iso))

/-- `_check_school`: walk 500 m isochrone OR drive 15 min isochrone,
facilities with `amenity == "school"`. -/
def _check_school {Poly : Type} (env : AccessEnv Poly) (coord : Pt) :
    Except IsoError (Bool × IsoFeature Poly × IsoFeature Poly) :=
  (build_isochrone env.walkData coord .walk 500 .meters).bind (fun isoWalk =>
    (build_isochrone env.driveData coord .drive 15 .minutes).map (fun isoDrive =>
      (((env.social.filter (fun f => decide (f.amenity = "school"))).any
          (fun f => _check_in_isochron env isoWalk f.location) ||
        (env.social.filter (fun f => decide (f.amenity = "school"))).any
          (fun f => _check_in_isochron env isoDrive f.location)), isoWalk, isoDrive)))

/-- The facility rows `_check_hospital` actually tests:
`SOCIAL_GDF[SOCIAL_GDF["amenity"].isin(["clinic"])]`. -/
def hospital_candidates {Poly : Type} (env : AccessEnv Poly) : List Facility :=
  env.social.filter (fun f => decide (f.amenity ∈ ["clinic"]))

/-- Modelled from the spec's rule table, for comparison with
`hospital_candidates`: the facility filter the specification states for the
hospital/clinic category, `amenity ∈ {hospital, clinic}`. -/
def spec_hospital_candidates {Poly : Type} (env : AccessEnv Poly) : List Facility :=
  env.social.filter (fun f => decide (f.amenity = "hospital" ∨ f.amenity = "clinic"))

/-- `_check_hospital`: walk isochrone at 2000 m over the clinic rows. -/
def _check_hospital {Poly : Type} (env : AccessEnv Poly) (coord : Pt) :
    Except IsoError (Bool × IsoFeature Poly) :=
  (build_isochrone env.walkData coord .walk 2000 .meters).map (fun iso =>
    ((hospital_candidates env).any (fun f => _check_in_isochron env iso f.location), iso))

/-- The result dict of `analyze_accessibility` (the `suggestions` fields are
filled later by the placement module and start empty; they carry no
information here). -/
structure AccessResult (Poly : Type) where
  kindergarten_ok : Bool
  kindergarten_iso : IsoFeature Poly
  school_ok : Bool
  school_iso_walk : IsoFeature Poly
  school_iso_drive : IsoFeature Poly
  hospital_ok : Bool
  hospital_iso : IsoFeature Poly
deriving DecidableEq

/-- `analyze_accessibility(coord)`: the three category checks run in
sequence; any exception propagates and aborts the whole analysis. -/
def analyze_accessibility {Poly : Type} (env : AccessEnv Poly) (coord : Pt) :
    Except IsoError (AccessResult Poly) :=
  (_check_kindergarten env coord).bind (fun kres =>
    (_check_school env coord).bind (fun sres =>
      (_check_hospital env coord).map (fun hres =>
        { kindergarten_ok := kres.1
          kindergarten_iso := kres.2
          school_ok := sres.1
          school_iso_walk := sres.2.1
          school_iso_drive := sres.2.2
          hospital_ok := hres.1
          hospital_iso := hres.2 })))

lemma check_kindergarten_ok_iff {Poly : Type} (env : AccessEnv Poly) (coord : Pt)
    (ok : Bool) (iso : IsoFeature Poly)
    (h : _check_kindergarten env coord = .ok (ok, iso)) :
    ok = true ↔ ∃ f ∈ env.social, f.amenity = "kindergarten" ∧
      env.containsPt iso.geometry f.location = true := by
  unfold _check_kindergarten at h
  cases hb : build_isochrone env.walkData coord .walk 500 .meters with
  | error e => rw [hb] at h; simp [Except.map] at h
  | ok iso2 =>
    rw [hb] at h
    simp only [Except.map, Except.ok.injEq, Prod.mk.injEq] at h
    obtain ⟨h1, h2⟩ := h
    subst h1
    subst h2
    simp [_check_in_isochron, List.any_eq_true, List.mem_filter]

lemma check_school_ok_iff {Poly : Type} (env : AccessEnv Poly) (coord : Pt)
    (ok : Bool) (isoWalk isoDrive : IsoFeature Poly)
    (h : _check_school env coord = .ok (ok, isoWalk, isoDrive)) :
    ok = true ↔ ∃ f ∈ env.social, f.amenity = "school" ∧
      (env.containsPt isoWalk.geometry f.location = true ∨
       env.containsPt isoDrive.geometry f.location = true) := by
  unfold _check_school at h
  cases hw : build_isochrone env.walkData coord .walk 500 .meters with
  | error e => rw [hw] at h; simp [Except.bind] at h
  | ok isoW =>
    rw [hw] at h
    cases hd : build_isochrone env.driveData coord .drive 15 .minutes with
    | error e => rw [hd] at h; simp [Except.bind, Except.map] at h
    | ok isoD =>
      rw [hd] at h
      simp only [Except.bind, Except.map, Except.ok.injEq, Prod.mk.injEq] at h
      obtain ⟨h1, h2, h3⟩ := h
      subst h1
      subst h2
      subst h3
      rw [Bool.or_eq_true, List.any_eq_true, List.any_eq_true]
      constructor
      · rintro (⟨f, hf, hc⟩ | ⟨f, hf, hc⟩)
        · rcases List.mem_filter.mp hf with ⟨hmem, hdec⟩
          exact ⟨f, hmem, of_decide_eq_true hdec, Or.inl hc⟩
        · rcases List.mem_filter.mp hf with ⟨hmem, hdec⟩
          exact ⟨f, hmem, of_decide_eq_true hdec, Or.inr hc⟩
      · rintro ⟨f, hmem, ha, hc | hc⟩
        · exact Or.inl ⟨f, List.mem_filter.mpr ⟨hmem, decide_eq_true ha⟩, hc⟩
        · exact Or.inr ⟨f, List.mem_filter.mpr ⟨hmem, decide_eq_true ha⟩, hc⟩

lemma check_hospital_ok_iff {Poly : Type} (env : AccessEnv Poly) (coord : Pt)
    (ok : Bool) (iso : IsoFeature Poly)
    (h : _check_hospital env coord = .ok (ok, iso)) :
    ok = true ↔ ∃ f ∈ env.social, f.amenity = "clinic" ∧
      env.containsPt iso.geometry f.location = true := by
  unfold _check_hospital at h
  cases hb : build_isochrone env.walkData coord .walk 2000 .meters with
  | error e => rw [hb] at h; simp [Except.map] at h
  | ok iso2 =>
    rw [hb] at h
    simp only [Except.map, Except.ok.injEq, Prod.mk.injEq] at h
    obtain ⟨h1, h2⟩ := h
    subst h1
    subst h2
    simp [hospital_candidates, _check_in_isochron, List.any_eq_true, List.mem_filter]

/-- C6: for each category the verdict is `true` iff at least one facility
passing the code's category filter lies inside the category's required
isochrone polygon(s) (the walk polygon for kindergarten and hospital, the
walk or the drive polygon for school), and an empty matching facility set
always yields `false`. -/
theorem C6_accessibility_ok_iff :
    ∀ (Poly : Type) (env : AccessEnv Poly) (coord : Pt),
      (∀ (ok : Bool) (iso : IsoFeature Poly),
        _check_kindergarten env coord = .ok (ok, iso) →
        ((ok = true ↔ ∃ f ∈ env.social, f.amenity = "kindergarten" ∧
            env.containsPt iso.geometry f.location = true) ∧
         ((∀ f ∈ env.social, f.amenity ≠ "kindergarten") → ok = false))) ∧
      (∀ (ok : Bool) (isoWalk isoDrive : IsoFeature Poly),
        _check_school env coord = .ok (ok, isoWalk, isoDrive) →
        ((ok = true ↔ ∃ f ∈ env.social, f.amenity = "school" ∧
            (env.containsPt isoWalk.geometry f.location = true ∨
             env.containsPt isoDrive.geometry f.location = true)) ∧
         ((∀ f ∈ env.social, f.amenity ≠ "school") → ok = false))) ∧
      (∀ (ok : Bool) (iso : IsoFeature Poly),
        _check_hospital env coord = .ok (ok, iso) →
        ((ok = true ↔ ∃ f ∈ env.social, f.amenity = "clinic" ∧
            env.containsPt iso.geometry f.location = true) ∧
         ((∀ f ∈ env.social, f.amenity ≠ "clinic") → ok = false))) := by
  intro Poly env coord
  refine ⟨?_, ?_, ?_⟩
  · intro ok iso h
    have hiff := check_kindergarten_ok_iff env coord ok iso h
    refine ⟨hiff, ?_⟩
    intro hempty
    cases hok : ok with
    | false => rfl
    | true =>
      rcases hiff.mp hok with ⟨f, hf, ha, _⟩
      exact absurd ha (hempty f hf)
  · intro ok isoWalk isoDrive h
    have hiff := check_school_ok_iff env coord ok isoWalk isoDrive h
    refine ⟨hiff, ?_⟩
    intro hempty
    cases hok : ok with
    | false => rfl
    | true =>
      rcases hiff.mp hok with ⟨f, hf, ha, _⟩
      exact absurd ha (hempty f hf)
  · intro ok iso h
    have hiff := check_hospital_ok_iff env coord ok iso h
    refine ⟨hiff, ?_⟩
    intro hempty
    cases hok : ok with
    | false => rfl
    | true =>
      rcases hiff.mp hok with ⟨f, hf, ha, _⟩
      exact absurd ha (hempty f hf)

/-- C7 (amended): the facility set `_check_hospital` tests is exactly the
rows with `amenity = "clinic"` — hospital-amenity points are never
considered — and the verdict is `true` iff such a clinic row lies inside
the 2 km walk isochrone. -/
theorem C7_hospital_filter_clinic_only :
    ∀ (Poly : Type) (env : AccessEnv Poly),
      hospital_candidates env = env.social.filter (fun f => decide (f.amenity = "clinic")) ∧
      ∀ (coord : Pt) (ok : Bool) (iso : IsoFeature Poly),
        _check_hospital env coord = .ok (ok, iso) →
        (ok = true ↔ ∃ f ∈ env.social, f.amenity = "clinic" ∧
          env.containsPt iso.geometry f.location = true) := by
  intro Poly env
  constructor
  · unfold hospital_candidates
    refine List.filter_congr ?_
    intro f _
    simp
  · intro coord ok iso h
    exact check_hospital_ok_iff env coord ok iso h

/-! ## PlacementRecommender: `placement_module.suggest_*`

Each `suggest_*` receives isochrone feature(s); containment of the static
residential points and low-density-zone centroids in those polygons is
abstracted as boolean predicates, and the isochrone feature itself is an
opaque value returned as the fallback zone.  The clustering stage calls
`find_residential_clusters` with its default radius 200 and minimum size 3. -/

/-- The dict each `suggest_*` returns. -/
structure PlacementResult (Iso : Type) where
  recommended_sites : List Pt
  fallback_zone : Option Iso
  criteria_used : List String

/-- Candidate sites of `suggest_kindergarten`: the centroids of clusters of
residential buildings inside the isochrone (the clustering branch only runs
on a non-empty restriction). -/
def kindergarten_sites (residential : List Pt) (inIso : Pt → Bool) : List Pt :=
  if (residential.filter inIso).isEmpty then []
  else find_residential_clusters (residential.filter inIso) 200 3

/-- `suggest_kindergarten(iso_feature)`. -/
def suggest_kindergarten {Iso : Type} (residential : List Pt) (inIso : Pt → Bool)
    (iso : Iso) : PlacementResult Iso :=
  { recommended_sites := kindergarten_sites residential inIso
    fallback_zone :=
      if kindergarten_sites residential inIso = [] then some iso else none
    criteria_used :=
      (if kindergarten_sites residential inIso = [] then []
       else ["clustered residential buildings within 500m walk isochrone"]) ++
      (if kindergarten_sites residential inIso = [] then ["fallback: full isochrone zone"]
       else []) }

/-- Stage 1 of `suggest_school` / `suggest_hospital`: the first low-density
zone (by table order, with its row index) whose centroid the polygon
contains. -/
def first_zone_center (lowDensity : List Pt) (inIso : Pt → Bool) : Option (Nat × Pt) :=
  lowDensity.enum.find? (fun p => inIso p.2)

/-- Stage 2 of `suggest_school`: centroids of residential clusters inside the
drive polygon, truncated to the first 3 (`cluster_centers[:3]`). -/
def school_cluster_sites (residential : List Pt) (inDrive : Pt → Bool) : List Pt :=
  if (residential.filter inDrive).isEmpty then []
  else (find_residential_clusters (residential.filter inDrive) 200 3).take 3

/-- Candidate sites of `suggest_school`: the first contained zone centroid,
or else the truncated cluster centroids. -/
def school_sites (lowDensity residential : List Pt) (inWalk inDrive : Pt → Bool) : List Pt :=
  match first_zone_center lowDensity inWalk with
  | some p => [p.2]
  | none => school_cluster_sites residential inDrive

/-- `suggest_school(iso_walk, iso_drive)`. -/
def suggest_school {Iso : Type} (lowDensity residential : List Pt)
    (inWalk inDrive : Pt → Bool) (isoWalk isoDrive : Iso) : PlacementResult Iso :=
  { recommended_sites := school_sites lowDensity residential inWalk inDrive
    fallback_zone :=
      if school_sites lowDensity residential inWalk inDrive = [] then some isoDrive
      else none
    criteria_used :=
      (match first_zone_center lowDensity inWalk with
       | some p => ["zone_" ++ toString p.1 ++ "_center within walk isochrone"]
       | none =>
         (if school_cluster_sites residential inDrive = [] then []
          else ["clustered residential buildings within drive isochrone"]) ++
         (if school_cluster_sites residential inDrive = []
          then ["fallback: full drive isochrone zone"] else [])) }

/-- Stage 2 of `suggest_hospital`: residential clusters inside the 2 km walk
polygon, truncated to the first 2 (`cluster_centers[:2]`). -/
def hospital_cluster_sites (residential : List Pt) (inIso : Pt → Bool) : List Pt :=
  if (residential.filter inIso).isEmpty then []
  else (find_residential_clusters (residential.filter inIso) 200 3).take 2

/-- Candidate sites of `suggest_hospital`. -/
def hospital_sites (lowDensity residential : List Pt) (inIso : Pt → Bool) : List Pt :=
  match first_zone_center lowDensity inIso with
  | some p => [p.2]
  | none => hospital_cluster_sites residential inIso

/-- `suggest_hospital(iso_feature)` (the FAP recommender over the 2 km walk
isochrone). -/
def suggest_hospital {Iso : Type} (lowDensity residential : List Pt)
    (inIso : Pt → Bool) (iso : Iso) : PlacementResult Iso :=
  { recommended_sites := hospital_sites lowDensity residential inIso
    fallback_zone :=
      if hospital_sites lowDensity residential inIso = [] then some iso else none
    criteria_used :=
      (match first_zone_center lowDensity inIso with
       | some p => ["zone_" ++ toString p.1 ++ "_center within 2km walk isochrone"]
       | none =>
         (if hospital_cluster_sites residential inIso = [] then []
          else ["clustered residential buildings within 2km walk isochrone"]) ++
         (if hospital_cluster_sites residential inIso = []
          then ["fallback: full 2km walk isochrone zone"] else [])) }

lemma sites_fallback_exclusive {Iso : Type} (sites : List Pt) (iso : Iso) :
    sites ≠ [] ↔ (if sites = [] then some iso else none) = none := by
  by_cases h : sites = [] <;> simp [h]

/-- C2: for every category and every input, the recommended-sites list is
non-empty exactly when the fallback zone is null. -/
theorem C2_recommendation_exclusivity :
    ∀ (Iso : Type) (lowDensity residential : List Pt)
      (inWalk inDrive inIso : Pt → Bool) (isoK isoW isoD isoH : Iso),
      ((suggest_kindergarten residential inIso isoK).recommended_sites ≠ [] ↔
        (suggest_kindergarten residential inIso isoK).fallback_zone = none) ∧
      ((suggest_school lowDensity residential inWalk inDrive isoW isoD).recommended_sites ≠ [] ↔
        (suggest_school lowDensity residential inWalk inDrive isoW isoD).fallback_zone = none) ∧
      ((suggest_hospital lowDensity residential inIso isoH).recommended_sites ≠ [] ↔
        (suggest_hospital lowDensity residential inIso isoH).fallback_zone = none) := by
  intro Iso lowDensity residential inWalk inDrive inIso isoK isoW isoD isoH
  exact ⟨sites_fallback_exclusive _ isoK, sites_fallback_exclusive _ isoD,
    sites_fallback_exclusive _ isoH⟩

/-- C10: in the residential-cluster stage, `suggest_kindergarten` emits all
cluster centroids the clusterer returns, while `suggest_school` keeps only
the first 3 and `suggest_hospital` only the first 2 (whenever the
zone-center stage produced nothing and the polygon restriction is
non-empty). -/
theorem C10_cluster_truncation :
    (∀ (Iso : Type) (residential : List Pt) (inIso : Pt → Bool) (iso : Iso),
      ¬ (residential.filter inIso).isEmpty →
      (suggest_kindergarten residential inIso iso).recommended_sites =
        find_residential_clusters (residential.filter inIso) 200 3) ∧
    (∀ (Iso : Type) (lowDensity residential : List Pt) (inWalk inDrive : Pt → Bool)
        (isoW isoD : Iso),
      first_zone_center lowDensity inWalk = none →
      ¬ (residential.filter inDrive).isEmpty →
      (suggest_school lowDensity residential inWalk inDrive isoW isoD).recommended_sites =
        (find_residential_clusters (residential.filter inDrive) 200 3).take 3) ∧
    (∀ (Iso : Type) (lowDensity residential : List Pt) (inIso : Pt → Bool) (iso : Iso),
      first_zone_center lowDensity inIso = none →
      ¬ (residential.filter inIso).isEmpty →
      (suggest_hospital lowDensity residential inIso iso).recommended_sites =
        (find_residential_clusters (residential.filter inIso) 200 3).take 2) := by
  refine ⟨?_, ?_, ?_⟩
  · intro Iso residential inIso iso hne
    simp [suggest_kindergarten, kindergarten_sites, hne]
  · intro Iso lowDensity residential inWalk inDrive isoW isoD hz hne
    simp [suggest_school, school_sites, school_cluster_sites, hz, hne]
  · intro Iso lowDensity residential inIso iso hz hne
    simp [suggest_hospital, hospital_sites, hospital_cluster_sites, hz, hne]

/-! ## Concrete fixtures

A two-node walk/drive graph (`a ↔ b`, 10 s per direction, one geometry row)
on which `build_isochrone` succeeds, a copy with an empty edge-geometry
table on which it fails with the no-reachable-edges error, and small
facility tables.  They instantiate the hypotheses of the theorems above. -/

def testGraph : RoutingGraph :=
  { nodes := [("a", ((0 : ℚ), (0 : ℚ))), ("b", ((1 : ℚ), (0 : ℚ)))]
    edges := [⟨"a", "b", 10⟩, ⟨"b", "a", 10⟩] }

def testData : GraphData Unit :=
  { graph := testGraph, edgesGeom := [("a", "b")], mkPoly := fun _ => () }

def brokenDriveData : GraphData Unit :=
  { graph := testGraph, edgesGeom := [], mkPoly := fun _ => () }

def testWalkFeature : IsoFeature Unit :=
  { geometry := (), mode := .walk, limit := 500, limit_type := .meters,
    time_limit_sec := 6000 / 13, source_node := "a", reachable_nodes := 2 }

def fapFeature : IsoFeature Unit :=
  { geometry := (), mode := .walk, limit := 2000, limit_type := .meters,
    time_limit_sec := 24000 / 13, source_node := "a", reachable_nodes := 2 }

lemma reachPairs_two (edges : List Edge) (t : ℚ) (src : String) :
    reachPairs edges t src 2 = stepPairs edges t (stepPairs edges t [(src, 0)]) := rfl

lemma build_isochrone_eq_ok {Poly : Type} (data : GraphData Poly) (coord : Pt)
    (mode : Mode) (limit : ℚ) (lt : LimitType) (t : ℚ)
    (hd : derive_time_limit mode limit lt = .ok t)
    (hne : iso_edges data coord t ≠ []) :
    build_isochrone data coord mode limit lt = .ok
      { geometry := data.mkPoly (iso_edges data coord t)
        mode := mode
        limit := limit
        limit_type := lt
        time_limit_sec := t
        source_node := snap_source data.graph coord
        reachable_nodes := (iso_reachable data coord t).length } := by
  unfold build_isochrone
  rw [hd]
  dsimp only
  rw [if_neg (iso_reachable_ne_nil data coord t), if_neg hne]

lemma eval_snap : snap_source testGraph ((0 : ℚ), (0 : ℚ)) = "a" := by
  norm_num [snap_source, nearestIdx, testGraph, sqDist, List.enum, List.enumFrom, List.foldl]

lemma eval_reachable (t : ℚ) (h10 : (10 : ℚ) ≤ t) (h20 : (20 : ℚ) ≤ t) :
    reachable_nodes testGraph "a" t = ["b", "a"] := by
  have hba : ("b" : String) ≠ "a" := by simp
  have hab : ("a" : String) ≠ "b" := by simp
  norm_num [reachable_nodes, testGraph, reachPairs_two, stepPairs, List.flatMap_cons,
    List.filter_cons, h10, h20, hba, hab, List.dedup_cons_of_mem, List.dedup_cons_of_not_mem]

lemma eval_iso_reachable (t : ℚ) (h10 : (10 : ℚ) ≤ t) (h20 : (20 : ℚ) ≤ t) :
    iso_reachable testData ((0 : ℚ), (0 : ℚ)) t = ["b", "a"] := by
  unfold iso_reachable
  have hg : testData.graph = testGraph := rfl
  rw [hg, eval_snap, eval_reachable t h10 h20]

lemma eval_iso_edges (t : ℚ) (h10 : (10 : ℚ) ≤ t) (h20 : (20 : ℚ) ≤ t) :
    iso_edges testData ((0 : ℚ), (0 : ℚ)) t = [("a", "b")] := by
  unfold iso_edges
  simp only [eval_iso_reachable t h10 h20]
  simp [testData, List.filter_cons]

lemma eval_build_walk500 :
    build_isochrone testData ((0 : ℚ), (0 : ℚ)) .walk 500 .meters = .ok testWalkFeature := by
  have h10 : (10 : ℚ) ≤ (500 : ℚ) / (13 / 10) * (12 / 10) := by norm_num
  have h20 : (20 : ℚ) ≤ (500 : ℚ) / (13 / 10) * (12 / 10) := by norm_num
  have hd : derive_time_limit .walk 500 .meters = .ok ((500 : ℚ) / (13 / 10) * (12 / 10)) := by
    simp [derive_time_limit, speed_mps]
  have hne : iso_edges testData ((0 : ℚ), (0 : ℚ)) ((500 : ℚ) / (13 / 10) * (12 / 10)) ≠ [] := by
    rw [eval_iso_edges _ h10 h20]
    simp
  rw [build_isochrone_eq_ok testData ((0 : ℚ), (0 : ℚ)) .walk 500 .meters _ hd hne]
  rw [eval_iso_edges _ h10 h20, eval_iso_reachable _ h10 h20]
  have hg : testData.graph = testGraph := rfl
  rw [hg, eval_snap]
  simp [testData, testWalkFeature]
  norm_num

lemma eval_build_walk2000 :
    build_isochrone testData ((0 : ℚ), (0 : ℚ)) .walk 2000 .meters = .ok fapFeature := by
  have h10 : (10 : ℚ) ≤ (2000 : ℚ) / (13 / 10) * (12 / 10) := by norm_num
  have h20 : (20 : ℚ) ≤ (2000 : ℚ) / (13 / 10) * (12 / 10) := by norm_num
  have hd : derive_time_limit .walk 2000 .meters = .ok ((2000 : ℚ) / (13 / 10) * (12 / 10)) := by
    simp [derive_time_limit, speed_mps]
  have hne : iso_edges testData ((0 : ℚ), (0 : ℚ)) ((2000 : ℚ) / (13 / 10) * (12 / 10)) ≠ [] := by
    rw [eval_iso_edges _ h10 h20]
    simp
  rw [build_isochrone_eq_ok testData ((0 : ℚ), (0 : ℚ)) .walk 2000 .meters _ hd hne]
  rw [eval_iso_edges _ h10 h20, eval_iso_reachable _ h10 h20]
  have hg : testData.graph = testGraph := rfl
  rw [hg, eval_snap]
  simp [testData, fapFeature]
  norm_num

lemma eval_build_drive_broken :
    build_isochrone brokenDriveData ((0 : ℚ), (0 : ℚ)) .drive 15 .minutes =
      .error .noReachableEdges := by
  have hd : derive_time_limit .drive 15 .minutes = .ok ((15 : ℚ) * 60 * 2) := by
    simp [derive_time_limit]
  have he : iso_edges brokenDriveData ((0 : ℚ), (0 : ℚ)) ((15 : ℚ) * 60 * 2) = [] := by
    simp [iso_edges, brokenDriveData]
  unfold build_isochrone
  rw [hd]
  dsimp only
  rw [if_neg (iso_reachable_ne_nil brokenDriveData ((0 : ℚ), (0 : ℚ)) ((15 : ℚ) * 60 * 2))]
  rw [if_pos he]

/-- C3 witness: the concrete two-node walk build succeeds and reports the
budget `(500 / 1.3) * 1.2`. -/
theorem C3_witness :
    build_isochrone testData ((0 : ℚ), (0 : ℚ)) .walk 500 .meters = .ok testWalkFeature ∧
    testWalkFeature.time_limit_sec = ((500 : ℚ) / (13 / 10)) * (12 / 10) :=
  ⟨eval_build_walk500,
   C3_time_budget.1 Unit testData ((0 : ℚ), (0 : ℚ)) 500 testWalkFeature eval_build_walk500⟩

/-- C8 witness: concrete monotonicity instance on the two-node graph. -/
theorem C8_witness :
    (0 : ℚ) ≤ 1 ∧ "a" ∈ reachable_nodes testGraph "a" 1 :=
  ⟨by norm_num,
   C8_reachable_monotone testGraph "a" 0 1 (by norm_num) "a"
     (source_mem_reachable_nodes testGraph "a" 0)⟩

/-- C9 witness: the source-reachability bundle at the concrete graph and
budget 1. -/
theorem C9_witness :
    (0 : ℚ) ≤ 1 ∧
    (((snap_source testData.graph ((0 : ℚ), (0 : ℚ)), (0 : ℚ)) ∈
        reachPairs testData.graph.edges 1 (snap_source testData.graph ((0 : ℚ), (0 : ℚ)))
          testData.graph.nodes.length) ∧
      iso_reachable testData ((0 : ℚ), (0 : ℚ)) 1 ≠ [] ∧
      (∀ (mode : Mode) (limit : ℚ) (lt : LimitType),
        build_isochrone testData ((0 : ℚ), (0 : ℚ)) mode limit lt ≠
          .error .noReachableNodes) ∧
      (∀ (mode : Mode) (limit : ℚ) (lt : LimitType) (f : IsoFeature Unit),
        build_isochrone testData ((0 : ℚ), (0 : ℚ)) mode limit lt = .ok f →
        1 ≤ f.reachable_nodes)) :=
  ⟨by norm_num, C9_source_always_reachable Unit testData ((0 : ℚ), (0 : ℚ)) 1 (by norm_num)⟩

/-! ### Accessibility fixtures -/

def kEnv : AccessEnv Unit :=
  { walkData := testData, driveData := testData,
    social := [⟨"kindergarten", ((0 : ℚ), (0 : ℚ))⟩], containsPt := fun _ _ => true }

def hospEnv : AccessEnv Unit :=
  { walkData := testData, driveData := testData,
    social := [⟨"hospital", ((0 : ℚ), (0 : ℚ))⟩], containsPt := fun _ _ => true }

def cEnv : AccessEnv Unit :=
  { walkData := testData, driveData := testData,
    social := [⟨"clinic", ((0 : ℚ), (0 : ℚ))⟩], containsPt := fun _ _ => true }

def failEnv : AccessEnv Unit :=
  { walkData := testData, driveData := brokenDriveData,
    social := [⟨"clinic", ((0 : ℚ), (0 : ℚ))⟩], containsPt := fun _ _ => true }

lemma eval_check_kindergarten :
    _check_kindergarten kEnv ((0 : ℚ), (0 : ℚ)) = .ok (true, testWalkFeature) := by
  simp only [_check_kindergarten, kEnv]
  rw [eval_build_walk500]
  simp [Except.map, _check_in_isochron]

lemma eval_check_hospital_cEnv :
    _check_hospital cEnv ((0 : ℚ), (0 : ℚ)) = .ok (true, fapFeature) := by
  simp only [_check_hospital, cEnv]
  rw [eval_build_walk2000]
  simp [Except.map, hospital_candidates, _check_in_isochron, cEnv]

lemma eval_check_hospital_failEnv :
    _check_hospital failEnv ((0 : ℚ), (0 : ℚ)) = .ok (true, fapFeature) := by
  simp only [_check_hospital, failEnv]
  rw [eval_build_walk2000]
  simp [Except.map, hospital_candidates, _check_in_isochron, failEnv]

lemma eval_check_kindergarten_failEnv :
    _check_kindergarten failEnv ((0 : ℚ), (0 : ℚ)) = .ok (false, testWalkFeature) := by
  simp only [_check_kindergarten, failEnv]
  rw [eval_build_walk500]
  simp [Except.map, _check_in_isochron]

lemma eval_check_school_failEnv :
    _check_school failEnv ((0 : ℚ), (0 : ℚ)) = .error .noReachableEdges := by
  simp only [_check_school, failEnv]
  rw [eval_build_walk500, eval_build_drive_broken]
  simp [Except.bind, Except.map]

/-- C4: the code does not isolate per-category isochrone failures — with a
healthy walk graph but an empty drive edge-geometry table, the school
check's drive isochrone raises, `analyze_accessibility` aborts with that
error, and the hospital category (which evaluates fine on its own) is
never reported. -/
theorem C4_failure_not_isolated :
    analyze_accessibility failEnv ((0 : ℚ), (0 : ℚ)) = .error .noReachableEdges ∧
    _check_kindergarten failEnv ((0 : ℚ), (0 : ℚ)) = .ok (false, testWalkFeature) ∧
    _check_hospital failEnv ((0 : ℚ), (0 : ℚ)) = .ok (true, fapFeature) := by
  refine ⟨?_, eval_check_kindergarten_failEnv, eval_check_hospital_failEnv⟩
  rw [analyze_accessibility, eval_check_kindergarten_failEnv, eval_check_school_failEnv]
  simp [Except.bind]

/-- C7 counterexample: a facility tagged `hospital` sitting inside the 2 km
walk isochrone is excluded from the tested candidate set (the spec's filter
would include it) and the check comes back `false`. -/
theorem C7_counterexample :
    hospital_candidates hospEnv = [] ∧
    spec_hospital_candidates hospEnv = [⟨"hospital", ((0 : ℚ), (0 : ℚ))⟩] ∧
    _check_hospital hospEnv ((0 : ℚ), (0 : ℚ)) = .ok (false, fapFeature) ∧
    hospEnv.containsPt fapFeature.geometry ((0 : ℚ), (0 : ℚ)) = true := by
  refine ⟨by simp [hospital_candidates, hospEnv], by simp [spec_hospital_candidates, hospEnv],
    ?_, by simp [hospEnv]⟩
  simp only [_check_hospital, hospEnv]
  rw [eval_build_walk2000]
  simp [Except.map, hospital_candidates, _check_in_isochron, hospEnv]

/-- C6 witness: concrete kindergarten check instance. -/
theorem C6_witness :
    _check_kindergarten kEnv ((0 : ℚ), (0 : ℚ)) = .ok (true, testWalkFeature) ∧
    ((true = true ↔ ∃ f ∈ kEnv.social, f.amenity = "kindergarten" ∧
        kEnv.containsPt testWalkFeature.geometry f.location = true) ∧
     ((∀ f ∈ kEnv.social, f.amenity ≠ "kindergarten") → true = false)) :=
  ⟨eval_check_kindergarten,
   (C6_accessibility_ok_iff Unit kEnv ((0 : ℚ), (0 : ℚ))).1 true testWalkFeature
     eval_check_kindergarten⟩

/-- C7 witness: concrete clinic-only instance of the amended filter claim. -/
theorem C7_witness :
    _check_hospital cEnv ((0 : ℚ), (0 : ℚ)) = .ok (true, fapFeature) ∧
    (true = true ↔ ∃ f ∈ cEnv.social, f.amenity = "clinic" ∧
      cEnv.containsPt fapFeature.geometry f.location = true) :=
  ⟨eval_check_hospital_cEnv,
   (C7_hospital_filter_clinic_only Unit cEnv).2 ((0 : ℚ), (0 : ℚ)) true fapFeature
     eval_check_hospital_cEnv⟩

/-- C10 witness: concrete truncation instances for the three categories. -/
theorem C10_witness :
    (¬ (([((0 : ℚ), (0 : ℚ))].filter (fun _ => true)).isEmpty) ∧
      (suggest_kindergarten [((0 : ℚ), (0 : ℚ))] (fun _ => true) ()).recommended_sites =
        find_residential_clusters ([((0 : ℚ), (0 : ℚ))].filter (fun _ => true)) 200 3) ∧
    (first_zone_center [] (fun _ => true) = none ∧
      (suggest_school [] [((0 : ℚ), (0 : ℚ))] (fun _ => true) (fun _ => true) () ()).recommended_sites =
        (find_residential_clusters ([((0 : ℚ), (0 : ℚ))].filter (fun _ => true)) 200 3).take 3) ∧
    (first_zone_center [] (fun _ => true) = none ∧
      (suggest_hospital [] [((0 : ℚ), (0 : ℚ))] (fun _ => true) ()).recommended_sites =
        (find_residential_clusters ([((0 : ℚ), (0 : ℚ))].filter (fun _ => true)) 200 3).take 2) :=
  ⟨⟨by simp, C10_cluster_truncation.1 Unit [((0 : ℚ), (0 : ℚ))] (fun _ => true) () (by simp)⟩,
   ⟨by simp [first_zone_center],
    C10_cluster_truncation.2.1 Unit [] [((0 : ℚ), (0 : ℚ))] (fun _ => true) (fun _ => true) () ()
      (by simp [first_zone_center]) (by simp)⟩,
   ⟨by simp [first_zone_center],
    C10_cluster_truncation.2.2 Unit [] [((0 : ℚ), (0 : ℚ))] (fun _ => true) ()
      (by simp [first_zone_center]) (by simp)⟩⟩

end GeoAnalysis
